import Mathlib

/-!
Verification of the rs-matter descriptor cluster
(`src/rs-matter/src/data_model/system_model/descriptor.rs`).

The TLV writer is modelled as a trace of emitted events: each `tw.…` call
in the source appends one event. The external encoder gate
(`encoder.with_dataver`) is modelled by its outcome (`Option Unit`): `none`
means "skip, data unchanged", `some ()` means a writer was obtained. The
generic system-attribute reader (`CLUSTER.read`) is external to this file's
source and is passed in as an opaque function.
-/

/-- Cluster id of the descriptor cluster (`pub const ID: u32 = 0x001D`). -/
def ID : Nat := 0x001D

/-- The closed attribute enumeration from the source
(`DeviceTypeList = 0, ServerList = 1, ClientList = 2, PartsList = 3`). -/
inductive Attributes where
  | DeviceTypeList
  | ServerList
  | ClientList
  | PartsList
deriving DecidableEq

/-- Numeric discriminants of `Attributes` (the `#[repr(u16)]` values). -/
def Attributes.id : Attributes → Nat
  | .DeviceTypeList => 0
  | .ServerList => 1
  | .ClientList => 2
  | .PartsList => 3

/-- Error kind. Modelled from the spec: the conversion generated by the
`attribute_enum!` macro (outside this source file) fails with an
invalid/unsupported-attribute protocol error for ids outside the declared
enumeration. -/
inductive Error where
  | attributeNotFound
deriving DecidableEq

/-- Modelled from the spec: the `attribute_enum!`-generated
`TryFrom<u32> for Attributes` used by `attr.attr_id.try_into()?`; it maps
each declared discriminant to its variant and everything else to the
unsupported-attribute error. -/
def attrFromId : Nat → Except Error Attributes
  | 0 => .ok .DeviceTypeList
  | 1 => .ok .ServerList
  | 2 => .ok .ClientList
  | 3 => .ok .PartsList
  | _ => .error .attributeNotFound

/-- A cluster hosted by an endpoint; only its numeric id is consumed here. -/
structure Cluster where
  id : Nat
deriving DecidableEq

/-- A device-type descriptor; opaque to this core (only forwarded to the
TLV writer), modelled as its numeric identity. -/
abbrev DeviceType := Nat

/-- An endpoint: id, device type, and its ordered hosted clusters. -/
structure Endpoint where
  id : Nat
  device_type : DeviceType
  clusters : List Cluster
deriving DecidableEq

/-- The read-only endpoint tree of one device instance. -/
structure Node where
  endpoints : List Endpoint
deriving DecidableEq

/-- TLV tags used by the source: `TagType::Anonymous` for array elements
and the external `AttrDataWriter::TAG` for the attribute value itself. -/
inductive TagType where
  | anonymous
  | attrDataTag
deriving DecidableEq

/-- One call to the TLV writer, recorded as a trace event. -/
inductive TLVEvent where
  | startArray (tag : TagType)
  | endContainer
  | u16 (tag : TagType) (v : Nat)
  | u32 (tag : TagType) (v : Nat)
  | devTypeTLV (tag : TagType) (d : DeviceType)
deriving DecidableEq

/-- `StandardPartsMatcher::describe`:
`our_endpoint == 0 && endpoint != our_endpoint`. -/
def StandardPartsMatcher.describe (our_endpoint endpoint : Nat) : Bool :=
  our_endpoint == 0 && endpoint != our_endpoint

/-- `AggregatorPartsMatcher::describe`:
`endpoint != our_endpoint && endpoint != 0`. -/
def AggregatorPartsMatcher.describe (our_endpoint endpoint : Nat) : Bool :=
  endpoint != our_endpoint && endpoint != 0

/-- The `for endpoint in node.endpoints` loop body of `encode_parts_list`:
emit `tw.u16(Anonymous, endpoint.id)` whenever the matcher says yes. -/
def partsListBody (matcher : Nat → Nat → Bool) (endpoint_id : Nat) :
    List Endpoint → List TLVEvent
  | [] => []
  | ep :: eps =>
    (if matcher endpoint_id ep.id then [TLVEvent.u16 TagType.anonymous ep.id] else [])
      ++ partsListBody matcher endpoint_id eps

/-- `DescriptorCluster::encode_parts_list`: start an array, loop over the
endpoints with the matcher, end the container. -/
def encode_parts_list (matcher : Nat → Nat → Bool) (node : Node)
    (endpoint_id : Nat) (tag : TagType) : List TLVEvent :=
  TLVEvent.startArray tag
    :: partsListBody matcher endpoint_id node.endpoints
    ++ [TLVEvent.endContainer]

/-- The loop body of `encode_server_list`: for every endpoint whose id
matches, emit each hosted cluster id via `tw.u32(Anonymous, cluster.id)`. -/
def serverListBody (endpoint_id : Nat) : List Endpoint → List TLVEvent
  | [] => []
  | ep :: eps =>
    (if ep.id == endpoint_id then
      ep.clusters.map (fun c => TLVEvent.u32 TagType.anonymous c.id)
     else [])
      ++ serverListBody endpoint_id eps

/-- `DescriptorCluster::encode_server_list`. -/
def encode_server_list (node : Node) (endpoint_id : Nat) (tag : TagType) :
    List TLVEvent :=
  TLVEvent.startArray tag
    :: serverListBody endpoint_id node.endpoints
    ++ [TLVEvent.endContainer]

/-- The loop body of `encode_devtype_list`: for every endpoint whose id
matches, emit its device type via `dev_type.to_tlv(tw, Anonymous)`. -/
def devtypeListBody (endpoint_id : Nat) : List Endpoint → List TLVEvent
  | [] => []
  | ep :: eps =>
    (if ep.id == endpoint_id then [TLVEvent.devTypeTLV TagType.anonymous ep.device_type]
     else [])
      ++ devtypeListBody endpoint_id eps

/-- `DescriptorCluster::encode_devtype_list`. -/
def encode_devtype_list (node : Node) (endpoint_id : Nat) (tag : TagType) :
    List TLVEvent :=
  TLVEvent.startArray tag
    :: devtypeListBody endpoint_id node.endpoints
    ++ [TLVEvent.endContainer]

/-- `DescriptorCluster::encode_client_list`: "No Clients supported" — an
array is started and immediately closed, ignoring node and endpoint id. -/
def encode_client_list (_node : Node) (_endpoint_id : Nat) (tag : TagType) :
    List TLVEvent :=
  [TLVEvent.startArray tag, TLVEvent.endContainer]

/-- The attribute-request descriptor consumed by `read`: the node tree,
the target endpoint id, the attribute id, and the external
"is this a generic/system attribute" flag (`attr.is_system()`). -/
structure AttrDetails where
  node : Node
  endpoint_id : Nat
  attr_id : Nat
  is_system : Bool

/-- `DescriptorCluster::read`. `gate` is the outcome of
`encoder.with_dataver(self.data_ver.get())?` — `none` models the
"skip, data unchanged" answer, `some ()` models an obtained writer.
`generic` is the external generic system-attribute reader
(`CLUSTER.read(attr.attr_id, writer)`), opaque here. The returned trace is
what the obtained writer received. -/
def DescriptorCluster.read (matcher : Nat → Nat → Bool)
    (generic : Nat → Except Error (List TLVEvent))
    (gate : Option Unit) (attr : AttrDetails) : Except Error (List TLVEvent) :=
  match gate with
  | some _ =>
    if attr.is_system then
      generic attr.attr_id
    else
      match attrFromId attr.attr_id with
      | Except.error e => Except.error e
      | Except.ok Attributes.DeviceTypeList =>
        Except.ok (encode_devtype_list attr.node attr.endpoint_id TagType.attrDataTag)
      | Except.ok Attributes.ServerList =>
        Except.ok (encode_server_list attr.node attr.endpoint_id TagType.attrDataTag)
      | Except.ok Attributes.PartsList =>
        Except.ok (encode_parts_list matcher attr.node attr.endpoint_id TagType.attrDataTag)
      | Except.ok Attributes.ClientList =>
        Except.ok (encode_client_list attr.node attr.endpoint_id TagType.attrDataTag)
  | none => Except.ok []

/-- Modelled from the spec: the Version Counter (`Dataver`, outside this
source file) — a monotonically advancing counter plus an edge-triggered,
single-slot change flag; `increment` raises the flag, `consume_change`
returns the signal once and clears the flag (compare-and-clear, no queue). -/
structure Dataver where
  ver : Nat
  changed : Bool
deriving DecidableEq

/-- Modelled from the spec: `currentValue()` of the Version Counter. -/
def Dataver.get (d : Dataver) : Nat := d.ver

/-- Modelled from the spec: an external `increment()` advances the counter
and raises the pending-change flag. -/
def Dataver.increment (d : Dataver) : Dataver :=
  { ver := d.ver + 1, changed := true }

/-- Modelled from the spec: `consumeChangeSignal() -> Option<Unit>` —
returns the signal exactly once when a change is pending and clears it. -/
def Dataver.consume_change (d : Dataver) : Option Unit × Dataver :=
  if d.changed then (some (), { d with changed := false }) else (none, d)

/-- `n` successive increments of the Version Counter. -/
def incN (d : Dataver) : Nat → Dataver
  | 0 => d
  | n + 1 => (incN d n).increment

/-- The outputs of `m` successive `consume_change` calls, threading the
counter state. -/
def consumeStream (d : Dataver) : Nat → List (Option Unit)
  | 0 => []
  | m + 1 =>
    (d.consume_change).fst :: consumeStream (d.consume_change).snd m

/-!  Helper lemmas. -/

lemma partsListBody_eq_filter (matcher : Nat → Nat → Bool) (e : Nat)
    (eps : List Endpoint) :
    partsListBody matcher e eps =
      (eps.filter fun ep => matcher e ep.id).map
        (fun ep => TLVEvent.u16 TagType.anonymous ep.id) := by
  induction eps with
  | nil => rfl
  | cons ep eps ih =>
    simp only [partsListBody, List.filter_cons]
    cases h : matcher e ep.id <;> simp [h, ih]

lemma serverListBody_of_absent (e : Nat) (eps : List Endpoint)
    (h : ∀ ep ∈ eps, ep.id ≠ e) : serverListBody e eps = [] := by
  induction eps with
  | nil => rfl
  | cons ep eps ih =>
    have h1 : (ep.id == e) = false := by
      simpa using h ep (List.mem_cons_self ep eps)
    simpa [serverListBody, h1] using
      ih fun ep' hmem => h ep' (List.mem_cons_of_mem ep hmem)

lemma devtypeListBody_of_absent (e : Nat) (eps : List Endpoint)
    (h : ∀ ep ∈ eps, ep.id ≠ e) : devtypeListBody e eps = [] := by
  induction eps with
  | nil => rfl
  | cons ep eps ih =>
    have h1 : (ep.id == e) = false := by
      simpa using h ep (List.mem_cons_self ep eps)
    simpa [devtypeListBody, h1] using
      ih fun ep' hmem => h ep' (List.mem_cons_of_mem ep hmem)

lemma serverListBody_of_unique (e : Nat) (eps : List Endpoint) (ep : Endpoint)
    (hnodup : (eps.map Endpoint.id).Nodup) (hmem : ep ∈ eps) (hid : ep.id = e) :
    serverListBody e eps =
      ep.clusters.map (fun c => TLVEvent.u32 TagType.anonymous c.id) := by
  induction eps with
  | nil => cases hmem
  | cons a eps ih =>
    rw [List.map_cons, List.nodup_cons] at hnodup
    rcases List.mem_cons.mp hmem with rfl | hmem'
    · have hrest : ∀ ep' ∈ eps, ep'.id ≠ e := by
        intro ep' hmem' heq
        exact hnodup.1 (hid ▸ heq ▸ List.mem_map_of_mem Endpoint.id hmem')
      simp [serverListBody, hid, serverListBody_of_absent e eps hrest]
    · have hne : (a.id == e) = false := by
        simp only [beq_eq_false_iff_ne, ne_eq]
        intro heq
        exact hnodup.1 (heq ▸ hid ▸ List.mem_map_of_mem Endpoint.id hmem')
      simpa [serverListBody, hne] using ih hnodup.2 hmem'

lemma devtypeListBody_of_unique (e : Nat) (eps : List Endpoint) (ep : Endpoint)
    (hnodup : (eps.map Endpoint.id).Nodup) (hmem : ep ∈ eps) (hid : ep.id = e) :
    devtypeListBody e eps = [TLVEvent.devTypeTLV TagType.anonymous ep.device_type] := by
  induction eps with
  | nil => cases hmem
  | cons a eps ih =>
    rw [List.map_cons, List.nodup_cons] at hnodup
    rcases List.mem_cons.mp hmem with rfl | hmem'
    · have hrest : ∀ ep' ∈ eps, ep'.id ≠ e := by
        intro ep' hmem' heq
        exact hnodup.1 (hid ▸ heq ▸ List.mem_map_of_mem Endpoint.id hmem')
      simp [devtypeListBody, hid, devtypeListBody_of_absent e eps hrest]
    · have hne : (a.id == e) = false := by
        simp only [beq_eq_false_iff_ne, ne_eq]
        intro heq
        exact hnodup.1 (heq ▸ hid ▸ List.mem_map_of_mem Endpoint.id hmem')
      simpa [devtypeListBody, hne] using ih hnodup.2 hmem'

lemma attrFromId_out_of_range (n : Nat) (h : 3 < n) :
    attrFromId n = Except.error Error.attributeNotFound := by
  obtain ⟨m, rfl⟩ : ∃ m, n = m + 4 := ⟨n - 4, by omega⟩
  rfl

lemma consume_change_of_cleared (d : Dataver) (h : d.changed = false) :
    d.consume_change = (none, d) := by
  simp [Dataver.consume_change, h]

lemma consumeStream_of_cleared (d : Dataver) (h : d.changed = false) (m : Nat) :
    consumeStream d m = List.replicate m none := by
  induction m with
  | zero => rfl
  | succ m ih =>
    simp [consumeStream, consume_change_of_cleared d h, ih, List.replicate_succ]

/-!  Claim theorems. -/

/-- Claim C1: for the Standard parts matcher and every Node, the PartsList
encoding for target endpoint 0 emits exactly the ids of all endpoints other
than 0, in Node iteration order, and for every target endpoint e ≠ 0 it
emits an empty array. -/
theorem standard_parts_list (node : Node) (tag : TagType) :
    encode_parts_list StandardPartsMatcher.describe node 0 tag =
      TLVEvent.startArray tag ::
        ((node.endpoints.filter fun ep => ep.id != 0).map
          fun ep => TLVEvent.u16 TagType.anonymous ep.id)
        ++ [TLVEvent.endContainer] ∧
    ∀ e : Nat, e ≠ 0 →
      encode_parts_list StandardPartsMatcher.describe node e tag =
        [TLVEvent.startArray tag, TLVEvent.endContainer] := by
  constructor
  · rw [encode_parts_list, partsListBody_eq_filter]
    simp [StandardPartsMatcher.describe]
  · intro e he
    have hfalse : ∀ x : Nat, StandardPartsMatcher.describe e x = false := by
      intro x
      simp [StandardPartsMatcher.describe, he]
    rw [encode_parts_list, partsListBody_eq_filter]
    simp [hfalse]

/-- Witness for C1: on a three-endpoint node, the Standard PartsList for
non-root endpoint 2 is the empty array. -/
theorem standard_parts_list_witness :
    encode_parts_list StandardPartsMatcher.describe
        ⟨[⟨0, 10, []⟩, ⟨1, 11, []⟩, ⟨2, 12, []⟩]⟩ 2 TagType.attrDataTag =
      [TLVEvent.startArray TagType.attrDataTag, TLVEvent.endContainer] :=
  (standard_parts_list ⟨[⟨0, 10, []⟩, ⟨1, 11, []⟩, ⟨2, 12, []⟩]⟩
    TagType.attrDataTag).2 2 (by decide)

/-- Claim C2: for the Aggregator parts matcher and every Node, the PartsList
encoding for every target endpoint e emits exactly the ids of all endpoints
except e and except 0, in Node iteration order. -/
theorem aggregator_parts_list (node : Node) (e : Nat) (tag : TagType) :
    encode_parts_list AggregatorPartsMatcher.describe node e tag =
      TLVEvent.startArray tag ::
        ((node.endpoints.filter fun ep => ep.id != e && ep.id != 0).map
          fun ep => TLVEvent.u16 TagType.anonymous ep.id)
        ++ [TLVEvent.endContainer] := by
  rw [encode_parts_list, partsListBody_eq_filter]
  rfl

/-- Claim C3: for every Node with unique endpoint ids and every target
endpoint present in the Node, the ServerList encoding emits exactly that
endpoint's hosted cluster ids, in stored order, each as a u32 array
element. -/
theorem server_list_exact (node : Node) (e : Nat) (tag : TagType) (ep : Endpoint)
    (hnodup : (node.endpoints.map Endpoint.id).Nodup)
    (hmem : ep ∈ node.endpoints) (hid : ep.id = e) :
    encode_server_list node e tag =
      TLVEvent.startArray tag ::
        (ep.clusters.map fun c => TLVEvent.u32 TagType.anonymous c.id)
        ++ [TLVEvent.endContainer] := by
  rw [encode_server_list, serverListBody_of_unique e node.endpoints ep hnodup hmem hid]

/-- Witness for C3: on the spec's concrete scenario node, the ServerList of
endpoint 1 is exactly its single cluster id. -/
theorem server_list_exact_witness :
    encode_server_list ⟨[⟨0, 10, [⟨6⟩, ⟨29⟩]⟩, ⟨1, 11, [⟨40⟩]⟩, ⟨2, 12, []⟩]⟩ 1
        TagType.attrDataTag =
      [TLVEvent.startArray TagType.attrDataTag,
        TLVEvent.u32 TagType.anonymous 40, TLVEvent.endContainer] :=
  server_list_exact ⟨[⟨0, 10, [⟨6⟩, ⟨29⟩]⟩, ⟨1, 11, [⟨40⟩]⟩, ⟨2, 12, []⟩]⟩ 1
    TagType.attrDataTag ⟨1, 11, [⟨40⟩]⟩ (by decide) (by decide) rfl

/-- Claim C4: for every Node with unique endpoint ids and every target
endpoint id e, the DeviceTypeList encoding emits exactly the device type of
the endpoint whose id is e as the single array element, and the empty array
when no endpoint has id e. -/
theorem devtype_list_exact (node : Node) (e : Nat) (tag : TagType)
    (hnodup : (node.endpoints.map Endpoint.id).Nodup) :
    (∀ ep ∈ node.endpoints, ep.id = e →
      encode_devtype_list node e tag =
        [TLVEvent.startArray tag,
          TLVEvent.devTypeTLV TagType.anonymous ep.device_type,
          TLVEvent.endContainer]) ∧
    ((∀ ep ∈ node.endpoints, ep.id ≠ e) →
      encode_devtype_list node e tag =
        [TLVEvent.startArray tag, TLVEvent.endContainer]) := by
  constructor
  · intro ep hmem hid
    rw [encode_devtype_list, devtypeListBody_of_unique e node.endpoints ep hnodup hmem hid]
    rfl
  · intro h
    rw [encode_devtype_list, devtypeListBody_of_absent e node.endpoints h]
    rfl

/-- Witness for C4: on a two-endpoint node, the DeviceTypeList of endpoint 1
is exactly its device type. -/
theorem devtype_list_exact_witness :
    encode_devtype_list ⟨[⟨0, 10, []⟩, ⟨1, 11, []⟩]⟩ 1 TagType.attrDataTag =
      [TLVEvent.startArray TagType.attrDataTag,
        TLVEvent.devTypeTLV TagType.anonymous 11, TLVEvent.endContainer] :=
  (devtype_list_exact ⟨[⟨0, 10, []⟩, ⟨1, 11, []⟩]⟩ 1 TagType.attrDataTag
    (by decide)).1 ⟨1, 11, []⟩ (by decide) rfl

/-- Claim C5: for every Node and every target endpoint id, the ClientList
encoding emits exactly one empty array, depending on neither the Node nor
the endpoint id. -/
theorem client_list_empty (node : Node) (e : Nat) (tag : TagType) :
    encode_client_list node e tag =
      [TLVEvent.startArray tag, TLVEvent.endContainer] :=
  rfl

/-- Claim C6: when the encoder's version gate reports skip (no writer),
`read` performs zero writes and returns success. -/
theorem read_skip_zero_writes (matcher : Nat → Nat → Bool)
    (generic : Nat → Except Error (List TLVEvent)) (attr : AttrDetails) :
    DescriptorCluster.read matcher generic none attr = Except.ok [] :=
  rfl

/-- Claim C7: a read carrying a non-system attribute id outside the declared
set 0..3 returns the unsupported-attribute error. -/
theorem read_unknown_attribute (matcher : Nat → Nat → Bool)
    (generic : Nat → Except Error (List TLVEvent)) (attr : AttrDetails)
    (hsys : attr.is_system = false) (hid : 3 < attr.attr_id) :
    DescriptorCluster.read matcher generic (some ()) attr =
      Except.error Error.attributeNotFound := by
  simp [DescriptorCluster.read, hsys, attrFromId_out_of_range attr.attr_id hid]

/-- Witness for C7: attribute id 7 with a writer available yields the
unsupported-attribute error. -/
theorem read_unknown_attribute_witness :
    DescriptorCluster.read StandardPartsMatcher.describe (fun _ => Except.ok [])
        (some ()) ⟨⟨[]⟩, 0, 7, false⟩ =
      Except.error Error.attributeNotFound :=
  read_unknown_attribute StandardPartsMatcher.describe (fun _ => Except.ok [])
    ⟨⟨[]⟩, 0, 7, false⟩ rfl (by decide)

/-- Claim C8: a read of a system attribute (with a writer available)
delegates entirely to the generic reader and returns its result, regardless
of matcher and of the generic reader chosen. -/
theorem read_system_delegates (matcher : Nat → Nat → Bool)
    (generic : Nat → Except Error (List TLVEvent)) (attr : AttrDetails)
    (hsys : attr.is_system = true) :
    DescriptorCluster.read matcher generic (some ()) attr = generic attr.attr_id := by
  simp [DescriptorCluster.read, hsys]

/-- Witness for C8: a system read of attribute id 65532 returns exactly what
the injected generic reader produces for 65532. -/
theorem read_system_delegates_witness :
    DescriptorCluster.read StandardPartsMatcher.describe
        (fun n => Except.ok [TLVEvent.u32 TagType.anonymous n]) (some ())
        ⟨⟨[]⟩, 0, 65532, true⟩ =
      Except.ok [TLVEvent.u32 TagType.anonymous 65532] :=
  read_system_delegates StandardPartsMatcher.describe
    (fun n => Except.ok [TLVEvent.u32 TagType.anonymous n])
    ⟨⟨[]⟩, 0, 65532, true⟩ rfl

/-- Claim C9: after any non-empty burst of increments, `consume_change`
returns the signal exactly once, and every subsequent call (until the next
increment) returns none. -/
theorem consume_change_once (d : Dataver) (n : Nat) (hn : 0 < n) :
    ((incN d n).consume_change).fst = some () ∧
    ∀ m : Nat, consumeStream ((incN d n).consume_change).snd m =
      List.replicate m none := by
  obtain ⟨k, rfl⟩ : ∃ k, n = k + 1 := ⟨n - 1, by omega⟩
  have hchanged : (incN d (k + 1)).changed = true := rfl
  constructor
  · simp [Dataver.consume_change, hchanged]
  · intro m
    apply consumeStream_of_cleared
    simp [Dataver.consume_change, hchanged]

/-- Witness for C9: a burst of two increments yields one signal, and the
next three consume calls all return none. -/
theorem consume_change_once_witness :
    0 < 2 ∧
    ((incN ⟨5, false⟩ 2).consume_change).fst = some () ∧
    consumeStream ((incN ⟨5, false⟩ 2).consume_change).snd 3 =
      List.replicate 3 none :=
  ⟨by decide, (consume_change_once ⟨5, false⟩ 2 (by decide)).1,
    (consume_change_once ⟨5, false⟩ 2 (by decide)).2 3⟩

/-- Claim C10: attribute-id validation sits behind the version gate — on the
skip path, `read` returns success even for a non-system attribute id outside
the declared set 0..3; the unsupported-attribute error is never produced
there. -/
theorem read_skip_bypasses_id_validation (matcher : Nat → Nat → Bool)
    (generic : Nat → Except Error (List TLVEvent)) (attr : AttrDetails)
    (hsys : attr.is_system = false) (hid : 3 < attr.attr_id) :
    DescriptorCluster.read matcher generic none attr = Except.ok [] :=
  rfl

/-- Witness for C10: a skipped read of the out-of-range attribute id 9
returns success with zero writes. -/
theorem read_skip_bypasses_id_validation_witness :
    DescriptorCluster.read StandardPartsMatcher.describe (fun _ => Except.ok [])
        none ⟨⟨[]⟩, 0, 9, false⟩ = Except.ok [] :=
  read_skip_bypasses_id_validation StandardPartsMatcher.describe
    (fun _ => Except.ok []) ⟨⟨[]⟩, 0, 9, false⟩ rfl (by decide)
